import Mathlib

/-!
Shallow embedding of the cluster connection and proxy subsystem of the
repository (main-process `Cluster` state machine, `KubeAuthProxy`,
`KubeconfigManager`) together with theorems settling the frozen claims
about it.  Sources embedded: `src/main/cluster.ts` (Cluster and
KubeAuthProxy classes) and the KubeconfigManager module.
-/

namespace Lens

/-- Connection status enum from `src/main/cluster.ts`.  In the source it is a
numeric enum: `AccessGranted = 2`, `AccessDenied = 1`, `Offline = 0`. -/
inductive ClusterStatus where
  | Offline
  | AccessDenied
  | AccessGranted
deriving DecidableEq, Repr

/-- Numeric value of the `ClusterStatus` enum, as declared in the source. -/
def ClusterStatus.toNat : ClusterStatus → Nat
  | .Offline => 0
  | .AccessDenied => 1
  | .AccessGranted => 2

/-- One entry of the known API-resource table (`KubeApiResource` in
`src/common/rbac`): an `apiName`, a `kind` and an optional `group`. -/
structure KubeApiResource where
  apiName : String
  kind : String
  group : Option String := none
deriving DecidableEq, Repr

/-- Mutable observable state of the `Cluster` class from
`src/main/cluster.ts`, restricted to the fields the embedded methods read or
write.  `failureReason` is `Option String` because the source sets it to
`null` on success.  `resourceAccessStatuses` is the internal
`Map<KubeApiResource, boolean>` cache, embedded as an association list.
`metadata` is the observable key/value metadata map. -/
structure Cluster where
  id : String
  apiUrl : String
  online : Bool := false
  accessible : Bool := false
  ready : Bool := false
  disconnected : Bool := true
  activated : Bool := false
  failureReason : Option String := none
  isAdmin : Bool := false
  isGlobalWatchEnabled : Bool := false
  allowedNamespaces : List String := []
  allowedResources : List String := []
  accessibleNamespaces : List String := []
  resourceAccessStatuses : List (KubeApiResource × Bool) := []
  metadata : List (String × String) := []
  getAllowedNamespacesErrorCount : Nat := 0
deriving DecidableEq, Repr

/-- Serializable cluster state produced by `Cluster.getState()` in the source
(the `ClusterState` interface). -/
structure ClusterState where
  apiUrl : String
  online : Bool
  disconnected : Bool
  accessible : Bool
  ready : Bool
  failureReason : Option String
  isAdmin : Bool
  allowedNamespaces : List String
  allowedResources : List String
  isGlobalWatchEnabled : Bool
deriving DecidableEq, Repr

/-- Embedding of `Cluster.getState()`: copies the derived fields into the
serializable `ClusterState` object. -/
def Cluster.getState (c : Cluster) : ClusterState :=
  { apiUrl := c.apiUrl
    online := c.online
    ready := c.ready
    disconnected := c.disconnected
    accessible := c.accessible
    failureReason := c.failureReason
    isAdmin := c.isAdmin
    allowedNamespaces := c.allowedNamespaces
    allowedResources := c.allowedResources
    isGlobalWatchEnabled := c.isGlobalWatchEnabled }

/-- Embedding of `Cluster.disconnect()`: sets `disconnected = true`, clears
`online`, `accessible`, `ready`, the `activated` flag and
`allowedNamespaces`, and clears the `resourceAccessStatuses` cache.  The
side effects (`unbindEvents`, `stopServer`, `pushState`) do not touch the
state fields. -/
def Cluster.disconnect (c : Cluster) : Cluster :=
  { c with
    disconnected := true
    online := false
    accessible := false
    ready := false
    activated := false
    allowedNamespaces := []
    resourceAccessStatuses := [] }

/-- Shape of the JavaScript error value caught by
`Cluster.getConnectionStatus()`.  `statusCode` is present on HTTP errors
(and is truthy when nonzero), `failed` and `timedOut` are the execa-style
flags tested with `=== true`, `error` is the optional `error.error` string
and `message` is `error.message`. -/
structure DetectError where
  statusCode : Option Int := none
  failed : Bool := false
  timedOut : Bool := false
  error : Option String := none
  message : String := ""
deriving DecidableEq, Repr

/-- JavaScript `a || b` on an optional string `a` and a string `b`: yields
`b` when `a` is absent or empty (falsy), otherwise the contents of `a`. -/
def jsOrString (a : Option String) (b : String) : String :=
  match a with
  | some s => if s = "" then b else s
  | none => b

/-- Outcome of the version-detection probe awaited by
`Cluster.getConnectionStatus()`: either the detected version value or a
thrown error. -/
inductive VersionDetectResult where
  | ok (version : String)
  | err (e : DetectError)
deriving DecidableEq, Repr

/-- Update one key of the metadata association map, mirroring
`this.metadata.version = versionData.value`. -/
def updateEntry (m : List (String × String)) (k v : String) : List (String × String) :=
  if m.any (fun kv => kv.1 == k) then
    m.map (fun kv => if kv.1 == k then (k, v) else kv)
  else
    m ++ [(k, v)]

/-- Fallthrough of `Cluster.getConnectionStatus()` reached when
`error.statusCode` is falsy: the `error.failed === true` branch (with its
`timedOut` sub-branch) and the final `Offline` default. -/
def connStatusFallback (c : Cluster) (e : DetectError) : ClusterStatus × Cluster :=
  if e.failed then
    if e.timedOut then
      (ClusterStatus.Offline, { c with failureReason := some ("Connection timed out") })
    else
      (ClusterStatus.AccessDenied, { c with failureReason := some ("Failed to fetch credentials") })
  else
    (ClusterStatus.Offline, { c with failureReason := some (e.message) })

/-- Embedding of `Cluster.getConnectionStatus()`: on success it records the
version in metadata, clears `failureReason` and grants access; on an error
with a truthy `statusCode` it distinguishes 4xx (`AccessDenied`, reason
"Invalid credentials") from everything else (`Offline`, reason
`error.error || error.message`); otherwise it falls through to
`connStatusFallback`. -/
def Cluster.getConnectionStatus (c : Cluster) (r : VersionDetectResult) : ClusterStatus × Cluster :=
  match r with
  | .ok v =>
    (ClusterStatus.AccessGranted,
     { c with metadata := updateEntry c.metadata ("version") v, failureReason := none })
  | .err e =>
    match e.statusCode with
    | some n =>
      if n = 0 then
        connStatusFallback c e
      else if 400 ≤ n ∧ n < 500 then
        (ClusterStatus.AccessDenied, { c with failureReason := some ("Invalid credentials") })
      else
        (ClusterStatus.Offline, { c with failureReason := some (jsOrString e.error e.message) })
    | none => connStatusFallback c e

/-- Embedding of `Cluster.refreshConnectionStatus()`: awaits the connection
status and sets `online = (status > Offline)` and
`accessible = (status == AccessGranted)`. -/
def Cluster.refreshConnectionStatus (c : Cluster) (r : VersionDetectResult) : Cluster :=
  let res := c.getConnectionStatus r
  { res.2 with
    online := decide (ClusterStatus.toNat ClusterStatus.Offline < res.1.toNat)
    accessible := decide (res.1 = ClusterStatus.AccessGranted) }

/-- Version-detection failures the spec groups as "any other failure": a
timeout (`failed`/`timedOut` flags, no HTTP status), a network error (no
HTTP status, not an execa failure) or a 5xx HTTP response. -/
def DetectError.isNonClientHttpFailure (e : DetectError) : Prop :=
  (e.statusCode = none ∧ e.failed = true ∧ e.timedOut = true) ∨
  (e.statusCode = none ∧ e.failed = false) ∨
  (∃ n, e.statusCode = some n ∧ 500 ≤ n)

/-- Concrete cluster used by the witness theorems. -/
def witnessCluster : Cluster :=
  { id := "test-cluster", apiUrl := "https://kubernetes.example:6443" }

/-- Concrete timed-out version-detection error used by witness theorems. -/
def timeoutErr : DetectError :=
  { failed := true, timedOut := true, message := "Timed out after 10000 ms" }

/-- C2: every version-detection failure that is not an HTTP 4xx — a timeout,
a network error, or a 5xx — makes the probe resolve to `Offline` with a
human-readable `failureReason` taken from the error (the timeout case
yields "Connection timed out", which mentions the timeout), and
`refreshConnectionStatus` then sets `online = false`. -/
theorem offline_on_non_client_http_failure (c : Cluster) (e : DetectError)
    (h : e.isNonClientHttpFailure) :
    (c.getConnectionStatus (.err e)).1 = ClusterStatus.Offline ∧
    (c.refreshConnectionStatus (.err e)).online = false ∧
    (∃ s, (c.refreshConnectionStatus (.err e)).failureReason = some s) ∧
    (e.statusCode = none → e.failed = true → e.timedOut = true →
      (c.refreshConnectionStatus (.err e)).failureReason = some ("Connection timed out")) ∧
    (e.statusCode = none → e.failed = false →
      (c.refreshConnectionStatus (.err e)).failureReason = some (e.message)) ∧
    (∀ n, e.statusCode = some n → 500 ≤ n →
      (c.refreshConnectionStatus (.err e)).failureReason = some (jsOrString e.error e.message)) := by
  rcases h with ⟨hsc, hf, ht⟩ | ⟨hsc, hf⟩ | ⟨n, hsc, hn⟩
  · simp [Cluster.getConnectionStatus, Cluster.refreshConnectionStatus,
      connStatusFallback, hsc, hf, ht, ClusterStatus.toNat]
  · simp [Cluster.getConnectionStatus, Cluster.refreshConnectionStatus,
      connStatusFallback, hsc, hf, ClusterStatus.toNat]
  · have hne : ¬ n = 0 := by omega
    have hlt : ¬ (400 ≤ n ∧ n < 500) := by omega
    simp [Cluster.getConnectionStatus, Cluster.refreshConnectionStatus,
      hsc, hne, hlt, ClusterStatus.toNat]

/-- Witness for C2 at a concrete timed-out probe: the probe resolves to
`Offline`, `online` ends up `false` and the failure reason mentions the
timeout. -/
theorem offline_on_non_client_http_failure_witness :
    (witnessCluster.getConnectionStatus (.err timeoutErr)).1 = ClusterStatus.Offline ∧
    (witnessCluster.refreshConnectionStatus (.err timeoutErr)).online = false ∧
    (∃ s, (witnessCluster.refreshConnectionStatus (.err timeoutErr)).failureReason = some s) ∧
    (timeoutErr.statusCode = none → timeoutErr.failed = true → timeoutErr.timedOut = true →
      (witnessCluster.refreshConnectionStatus (.err timeoutErr)).failureReason =
        some ("Connection timed out")) ∧
    (timeoutErr.statusCode = none → timeoutErr.failed = false →
      (witnessCluster.refreshConnectionStatus (.err timeoutErr)).failureReason =
        some (timeoutErr.message)) ∧
    (∀ n, timeoutErr.statusCode = some n → 500 ≤ n →
      (witnessCluster.refreshConnectionStatus (.err timeoutErr)).failureReason =
        some (jsOrString timeoutErr.error timeoutErr.message)) :=
  offline_on_non_client_http_failure witnessCluster timeoutErr
    (Or.inl ⟨rfl, rfl, rfl⟩)

/-- C3: a version-detection failure with HTTP status 403 resolves to
`AccessDenied`; after `refreshConnectionStatus`, `failureReason` is
"Invalid credentials", `online` is true and `accessible` is false. -/
theorem access_denied_on_403 (c : Cluster) (e : DetectError)
    (h : e.statusCode = some 403) :
    (c.getConnectionStatus (.err e)).1 = ClusterStatus.AccessDenied ∧
    (c.refreshConnectionStatus (.err e)).failureReason = some ("Invalid credentials") ∧
    (c.refreshConnectionStatus (.err e)).online = true ∧
    (c.refreshConnectionStatus (.err e)).accessible = false := by
  simp [Cluster.getConnectionStatus, Cluster.refreshConnectionStatus, h,
    ClusterStatus.toNat]

/-- Witness for C3 at a concrete 403 error. -/
theorem access_denied_on_403_witness :
    (witnessCluster.getConnectionStatus
        (.err { statusCode := some 403, message := "Forbidden" })).1 =
      ClusterStatus.AccessDenied ∧
    (witnessCluster.refreshConnectionStatus
        (.err { statusCode := some 403, message := "Forbidden" })).failureReason =
      some ("Invalid credentials") ∧
    (witnessCluster.refreshConnectionStatus
        (.err { statusCode := some 403, message := "Forbidden" })).online = true ∧
    (witnessCluster.refreshConnectionStatus
        (.err { statusCode := some 403, message := "Forbidden" })).accessible = false :=
  access_denied_on_403 witnessCluster { statusCode := some 403, message := "Forbidden" } rfl

/-- C4: for every cluster, `disconnect()` followed by `getState()` yields a
state with `online = false`, `accessible = false`, `ready = false` and
`disconnected = true`. -/
theorem disconnect_getState_flags (c : Cluster) :
    (c.disconnect).getState.online = false ∧
    (c.disconnect).getState.accessible = false ∧
    (c.disconnect).getState.ready = false ∧
    (c.disconnect).getState.disconnected = true := by
  simp [Cluster.disconnect, Cluster.getState]

/-- C10: `disconnect()` leaves `allowedResources`, `isAdmin`,
`isGlobalWatchEnabled`, `failureReason` and the cached metadata map
unchanged (as well as identity and configuration fields), and resets only
`disconnected`, `online`, `accessible`, `ready`, the `activated` flag,
`allowedNamespaces` and the internal resource-access cache. -/
theorem disconnect_frame (c : Cluster) :
    (c.disconnect).allowedResources = c.allowedResources ∧
    (c.disconnect).isAdmin = c.isAdmin ∧
    (c.disconnect).isGlobalWatchEnabled = c.isGlobalWatchEnabled ∧
    (c.disconnect).failureReason = c.failureReason ∧
    (c.disconnect).metadata = c.metadata ∧
    (c.disconnect).id = c.id ∧
    (c.disconnect).apiUrl = c.apiUrl ∧
    (c.disconnect).accessibleNamespaces = c.accessibleNamespaces ∧
    (c.disconnect).getAllowedNamespacesErrorCount = c.getAllowedNamespacesErrorCount ∧
    (c.disconnect).disconnected = true ∧
    (c.disconnect).online = false ∧
    (c.disconnect).accessible = false ∧
    (c.disconnect).ready = false ∧
    (c.disconnect).activated = false ∧
    (c.disconnect).allowedNamespaces = [] ∧
    (c.disconnect).resourceAccessStatuses = [] := by
  simp [Cluster.disconnect]

/-- Error caught in `Cluster.getAllowedNamespaces()`: it is tested with
`error instanceof HttpError && error.statusCode === 403`. -/
structure NsListError where
  isHttpError : Bool := false
  statusCode : Option Int := none
deriving DecidableEq, Repr

/-- Outcome of `api.listNamespace()` inside `Cluster.getAllowedNamespaces()`. -/
inductive ListNamespaceResult where
  | ok (names : List String)
  | err (e : NsListError)
deriving DecidableEq, Repr

/-- Embedding of `Cluster.getAllowedNamespaces()`.  Extra inputs: the
namespace-listing outcome `r` and the kubeconfig context namespace
`ctxNamespace` (the source reads `ctx.namespace` and filters out falsy
values).  Returns the namespace list, the updated cluster, and the list of
cluster ids broadcast on the `ClusterListNamespaceForbiddenChannel`. -/
def Cluster.getAllowedNamespaces (c : Cluster) (r : ListNamespaceResult)
    (ctxNamespace : Option String) : List String × Cluster × List String :=
  if c.accessibleNamespaces ≠ [] then
    (c.accessibleNamespaces, c, [])
  else
    match r with
    | .ok names => (names, { c with getAllowedNamespacesErrorCount := 0 }, [])
    | .err e =>
      let namespaceList : List String :=
        match ctxNamespace with
        | some s => if s = "" then [] else [s]
        | none => []
      if namespaceList = [] ∧ e.isHttpError = true ∧ e.statusCode = some 403 then
        let count := c.getAllowedNamespacesErrorCount + 1
        if count > 3 then
          (namespaceList, { c with getAllowedNamespacesErrorCount := 0 }, [c.id])
        else
          (namespaceList, { c with getAllowedNamespacesErrorCount := count }, [])
      else
        (namespaceList, c, [])

/-- Run a sequence of namespace-listing attempts (one per refresh cycle)
through `Cluster.getAllowedNamespaces`, accumulating the total number of
"namespace listing forbidden" broadcasts sent. -/
def runNamespaceListings (c : Cluster) (rs : List ListNamespaceResult)
    (ctxNamespace : Option String) : Cluster × Nat :=
  rs.foldl
    (fun acc r =>
      let step := acc.1.getAllowedNamespaces r ctxNamespace
      (step.2.1, acc.2 + step.2.2.length))
    (c, 0)

/-- Concrete forbidden (HTTP 403) namespace-listing failure. -/
def forbiddenErr : ListNamespaceResult :=
  .err { isHttpError := true, statusCode := some 403 }

/-- C1 (code behaviour at the claim's scenario): starting from a fresh
streak counter, with an empty kubeconfig-context fallback, three
consecutive 403 namespace-listing failures send NO forbidden broadcast
(the counter reaches 3); the broadcast is sent only on the fourth
consecutive failure, which also resets the counter, because the source
tests `getAllowedNamespacesErrorCount > 3` after incrementing.  A success
resets the streak, after which four further consecutive failures are again
needed for the next broadcast. -/
theorem namespace_forbidden_debounce_requires_four :
    (runNamespaceListings witnessCluster
        [forbiddenErr, forbiddenErr, forbiddenErr] none).2 = 0 ∧
    (runNamespaceListings witnessCluster
        [forbiddenErr, forbiddenErr, forbiddenErr] none).1.getAllowedNamespacesErrorCount = 3 ∧
    (runNamespaceListings witnessCluster
        [forbiddenErr, forbiddenErr, forbiddenErr, forbiddenErr] none).2 = 1 ∧
    (runNamespaceListings witnessCluster
        [forbiddenErr, forbiddenErr, forbiddenErr, forbiddenErr]
        none).1.getAllowedNamespacesErrorCount = 0 ∧
    (runNamespaceListings witnessCluster
        [forbiddenErr, forbiddenErr, forbiddenErr, forbiddenErr,
         ListNamespaceResult.ok (["default"]),
         forbiddenErr, forbiddenErr, forbiddenErr] none).2 = 1 ∧
    (runNamespaceListings witnessCluster
        [forbiddenErr, forbiddenErr, forbiddenErr, forbiddenErr,
         ListNamespaceResult.ok (["default"]),
         forbiddenErr, forbiddenErr, forbiddenErr, forbiddenErr] none).2 = 2 := by
  decide

/-- Association-list lookup standing for `Map.prototype.get` on the
`resourceAccessStatuses` map. -/
def mapGet (m : List (KubeApiResource × Bool)) (k : KubeApiResource) : Option Bool :=
  (m.find? (fun kv => kv.1 == k)).map (fun kv => kv.2)

/-- Association-list update standing for `Map.prototype.set`. -/
def mapSet (m : List (KubeApiResource × Bool)) (k : KubeApiResource) (v : Bool) :
    List (KubeApiResource × Bool) :=
  if m.any (fun kv => kv.1 == k) then
    m.map (fun kv => if kv.1 == k then (k, v) else kv)
  else
    m ++ [(k, v)]

/-- Embedding of `Cluster.getAllowedResources()`.  Extra inputs: the known
API-resource table `apiRes` (from `src/common/rbac`) and the oracle `canI`
giving the outcome of each SelfSubjectAccessReview "can-I list" call.
Returns the allowed resource names, the updated cluster (its
`resourceAccessStatuses` cache), and the number of authorization calls
issued.  The source's concurrency limit of 5 in-flight requests does not
change the sequential result. -/
def Cluster.getAllowedResources (c : Cluster) (apiRes : List KubeApiResource)
    (canI : KubeApiResource → String → Bool) : List String × Cluster × Nat :=
  if c.allowedNamespaces = [] then
    ([], c, 0)
  else
    let resources := apiRes.filter (fun res => mapGet c.resourceAccessStatuses res == none)
    let sweep :=
      resources.foldl
        (fun acc res =>
          (c.allowedNamespaces.take 10).foldl
            (fun acc2 ns =>
              if (mapGet acc2.1 res).getD false then acc2
              else (mapSet acc2.1 res (canI res ns), acc2.2 + 1))
            acc)
        (c.resourceAccessStatuses, 0)
    ((apiRes.filter (fun res => (mapGet sweep.1 res).getD false)).map (fun res => res.apiName),
     { c with resourceAccessStatuses := sweep.1 }, sweep.2)

/-- C5: when `allowedNamespaces` is empty, the permission sweep returns the
empty resource list, leaves the cluster unchanged and issues no
SelfSubjectAccessReview authorization call, whatever the API-resource
table and the authorization oracle are. -/
theorem empty_namespaces_skips_sweep (c : Cluster) (apiRes : List KubeApiResource)
    (canI : KubeApiResource → String → Bool) (h : c.allowedNamespaces = []) :
    c.getAllowedResources apiRes canI = ([], c, 0) := by
  simp [Cluster.getAllowedResources, h]

/-- Witness for C5: the concrete test cluster has no allowed namespaces, so
its sweep over a one-entry resource table under an always-granting oracle
returns no resources and makes no calls. -/
theorem empty_namespaces_skips_sweep_witness :
    witnessCluster.getAllowedResources [{ apiName := "pods", kind := "Pod" }]
      (fun _ _ => true) = ([], witnessCluster, 0) :=
  empty_namespaces_skips_sweep witnessCluster [{ apiName := "pods", kind := "Pod" }]
    (fun _ _ => true) rfl

/-- Embedding of `Cluster.isAllowedResource(kind)`.  Extra inputs: the key
set of the `apiResourceRecord` record and the `apiResources` list from
`src/common/rbac` (their contents are configuration data of that module).
If `kind` is a key of the record, membership of `kind` in
`allowedResources` decides; otherwise, if some entry of the list has this
`kind`, membership of that entry's `apiName` decides; otherwise the
resource is allowed by default. -/
def Cluster.isAllowedResource (c : Cluster) (recordKeys : List String)
    (apiRes : List KubeApiResource) (kind : String) : Bool :=
  if kind ∈ recordKeys then
    c.allowedResources.contains kind
  else
    match apiRes.find? (fun res => res.kind == kind) with
    | some res => c.allowedResources.contains res.apiName
    | none => true

/-- C9: for every kind string that is neither a key of the API-resource
record nor the `kind` of any entry of the API-resource list,
`isAllowedResource` returns `true`, whatever `allowedResources` holds. -/
theorem unknown_kind_allowed_by_default (c : Cluster) (recordKeys : List String)
    (apiRes : List KubeApiResource) (kind : String)
    (hrec : kind ∉ recordKeys) (hlist : ∀ res ∈ apiRes, res.kind ≠ kind) :
    c.isAllowedResource recordKeys apiRes kind = true := by
  have hfind : apiRes.find? (fun res => res.kind == kind) = none := by
    rw [List.find?_eq_none]
    intro res hres
    simpa using hlist res hres
  simp [Cluster.isAllowedResource, hrec, hfind]

/-- Witness for C9: the kind "MyCustomResource" is neither a record key nor
a list entry kind, so it is allowed by default even though
`allowedResources` is empty. -/
theorem unknown_kind_allowed_by_default_witness :
    witnessCluster.isAllowedResource (["pods", "deployments"])
      [{ apiName := "pods", kind := "Pod" }] ("MyCustomResource") = true :=
  unknown_kind_allowed_by_default witnessCluster (["pods", "deployments"])
    [{ apiName := "pods", kind := "Pod" }] ("MyCustomResource")
    (by decide) (by decide)

/-- Side effects performed by `KubeAuthProxy.exit()` on a live process
handle: `kill()`, `removeAllListeners()` on the process and the
`removeAllListeners()` calls on its stderr and stdout streams. -/
inductive ProxyEffect where
  | killProcess
  | removeAllListeners
  | removeStderrListeners
  | removeStdoutListeners
deriving DecidableEq, Repr

/-- State of the `KubeAuthProxy` class from `src/main/cluster.ts` relevant
to its teardown: the child-process handle (a pid when a process is
attached, `none` after it was nulled), the retained `lastError` and the
discovered port. -/
structure KubeAuthProxy where
  proxyProcess : Option Nat := none
  lastError : Option String := none
  port : Option Nat := none
deriving DecidableEq, Repr

/-- Embedding of `KubeAuthProxy.exit()`: with no process handle it returns
immediately (no effects); otherwise it kills the process, detaches every
listener and nulls the handle.  The source method has no throwing
statement on either path, which the embedding reflects by being a total
function. -/
def KubeAuthProxy.exit (s : KubeAuthProxy) : KubeAuthProxy × List ProxyEffect :=
  match s.proxyProcess with
  | none => (s, [])
  | some _ =>
    ({ s with proxyProcess := none },
     [.killProcess, .removeAllListeners, .removeStderrListeners, .removeStdoutListeners])

/-- C6: calling `exit()` twice in a row never fails — the process handle is
null after each of the two calls, and the second call leaves the state
untouched and performs no further action. -/
theorem exit_twice_idempotent (s : KubeAuthProxy) :
    (s.exit).1.proxyProcess = none ∧
    ((s.exit).1.exit).1.proxyProcess = none ∧
    ((s.exit).1.exit).1 = (s.exit).1 ∧
    ((s.exit).1.exit).2 = [] := by
  cases h : s.proxyProcess <;> simp [KubeAuthProxy.exit, h]

/-- Value of the `tempFile` field of `KubeconfigManager`: it starts as
JavaScript `null`, holds a path string once created and becomes
`undefined` after `unlink()`. -/
inductive TempFile where
  | nullVal
  | undefinedVal
  | pathVal (p : String)
deriving DecidableEq, Repr

/-- JavaScript falsiness of a `tempFile` value (`!this.tempFile`): `null`
and `undefined` are falsy, a path string is falsy only when empty. -/
def TempFile.falsy : TempFile → Bool
  | .nullVal => true
  | .undefinedVal => true
  | .pathVal p => p == ""

/-- State of the `KubeconfigManager` class relevant to its lifecycle. -/
structure KubeconfigManager where
  tempFile : TempFile := .nullVal
  clusterId : String := ""
deriving DecidableEq, Repr

/-- Embedding of `KubeconfigManager.unlink()`: a falsy `tempFile` returns
immediately; otherwise the file is deleted and `tempFile` becomes
`undefined`. -/
def KubeconfigManager.unlink (m : KubeconfigManager) : KubeconfigManager :=
  if m.tempFile.falsy then m else { m with tempFile := .undefinedVal }

/-- Embedding of `KubeconfigManager.getPath()`.  Extra inputs: `create`,
the outcome of a `createProxyKubeconfig()` attempt (`some path` on
success, `none` when it throws — `init()` and the self-healing branch
catch and log that error), and `fsExists`, the `fs.pathExists` oracle.
Returns the call's result (`Except.error` models the thrown
"kubeconfig is already unlinked" error), the updated manager and the
number of `createProxyKubeconfig()` attempts made. -/
def KubeconfigManager.getPath (m : KubeconfigManager) (create : Option String)
    (fsExists : String → Bool) : Except String TempFile × KubeconfigManager × Nat :=
  if m.tempFile = .undefinedVal then
    (Except.error ("kubeconfig is already unlinked"), m, 0)
  else
    let afterInit :=
      if m.tempFile.falsy then
        match create with
        | some p => ({ m with tempFile := .pathVal p }, 1)
        | none => (m, 1)
      else (m, 0)
    let onDisk :=
      match afterInit.1.tempFile with
      | .pathVal p => fsExists p
      | _ => false
    if onDisk then
      (Except.ok afterInit.1.tempFile, afterInit.1, afterInit.2)
    else
      match create with
      | some p =>
        (Except.ok (TempFile.pathVal p),
         { afterInit.1 with tempFile := .pathVal p }, afterInit.2 + 1)
      | none => (Except.ok afterInit.1.tempFile, afterInit.1, afterInit.2 + 1)

/-- C7: once `unlink()` has completed on a manager whose temp kubeconfig
file had been created (a non-empty cached path), any subsequent
`getPath()` call throws the "kubeconfig is already unlinked" error, makes
no `createProxyKubeconfig()` attempt, and leaves the manager in the same
unlinked state — so every later call fails the same way. -/
theorem getPath_after_unlink_throws (m : KubeconfigManager) (p : String)
    (create : Option String) (fsExists : String → Bool)
    (hpath : m.tempFile = .pathVal p) (hne : p ≠ "") :
    (m.unlink).tempFile = .undefinedVal ∧
    ((m.unlink).getPath create fsExists).1 =
      Except.error ("kubeconfig is already unlinked") ∧
    ((m.unlink).getPath create fsExists).2.1 = m.unlink ∧
    ((m.unlink).getPath create fsExists).2.2 = 0 := by
  have hfal : m.tempFile.falsy = false := by
    rw [hpath]
    simpa [TempFile.falsy] using hne
  have hun : m.unlink = { m with tempFile := .undefinedVal } := by
    simp [KubeconfigManager.unlink, hfal]
  rw [hun]
  simp [KubeconfigManager.getPath]

/-- Witness for C7 at a concrete manager whose temp file was created at
"/tmp/kubeconfig-test-cluster". -/
theorem getPath_after_unlink_throws_witness :
    (KubeconfigManager.unlink
        { tempFile := .pathVal ("/tmp/kubeconfig-test-cluster"),
          clusterId := "test-cluster" }).tempFile = .undefinedVal ∧
    ((KubeconfigManager.unlink
        { tempFile := .pathVal ("/tmp/kubeconfig-test-cluster"),
          clusterId := "test-cluster" }).getPath
        (some ("/tmp/kubeconfig-test-cluster")) (fun _ => true)).1 =
      Except.error ("kubeconfig is already unlinked") ∧
    ((KubeconfigManager.unlink
        { tempFile := .pathVal ("/tmp/kubeconfig-test-cluster"),
          clusterId := "test-cluster" }).getPath
        (some ("/tmp/kubeconfig-test-cluster")) (fun _ => true)).2.1 =
      KubeconfigManager.unlink
        { tempFile := .pathVal ("/tmp/kubeconfig-test-cluster"),
          clusterId := "test-cluster" } ∧
    ((KubeconfigManager.unlink
        { tempFile := .pathVal ("/tmp/kubeconfig-test-cluster"),
          clusterId := "test-cluster" }).getPath
        (some ("/tmp/kubeconfig-test-cluster")) (fun _ => true)).2.2 = 0 :=
  getPath_after_unlink_throws
    { tempFile := .pathVal ("/tmp/kubeconfig-test-cluster"), clusterId := "test-cluster" }
    ("/tmp/kubeconfig-test-cluster") (some ("/tmp/kubeconfig-test-cluster"))
    (fun _ => true) rfl (by decide)

/-- Cluster entry of the synthesized proxy kubeconfig. -/
structure ProxyKubeconfigCluster where
  name : String
  server : String
  skipTLSVerify : Option Bool := none
deriving DecidableEq, Repr

/-- User entry of the synthesized proxy kubeconfig; every credential field
of the kubeconfig user schema is optional and absent in the synthesized
config. -/
structure ProxyKubeconfigUser where
  name : String
  token : Option String := none
  username : Option String := none
  password : Option String := none
  certData : Option String := none
  keyData : Option String := none
  authProvider : Option String := none
deriving DecidableEq, Repr

/-- Context entry of the synthesized proxy kubeconfig. -/
structure ProxyKubeconfigContext where
  name : String
  cluster : String
  user : String
  namespaceName : Option String := none
deriving DecidableEq, Repr

/-- Synthesized proxy kubeconfig object built by
`KubeconfigManager.createProxyKubeconfig()`. -/
structure ProxyKubeconfig where
  currentContext : String
  clusters : List ProxyKubeconfigCluster
  users : List ProxyKubeconfigUser
  contexts : List ProxyKubeconfigContext
deriving DecidableEq, Repr

/-- Embedding of the `resolveProxyUrl` getter:
`http://127.0.0.1:<lens proxy port>/<cluster id>`. -/
def resolveProxyUrl (port : Nat) (clusterId : String) : String :=
  "http://127.0.0.1:" ++ toString port ++ "/" ++ clusterId

/-- Embedding of `KubeconfigManager.createProxyKubeconfig()`: builds the
minimal proxy config (one cluster pointing at the local proxy URL with the
TLS-verification flag unset, one credential-less "proxy" user, one context
preserving the original kubeconfig context's namespace) and returns it
together with the file mode used for the write (`0o600`). -/
def createProxyKubeconfig (contextName clusterId : String) (port : Nat)
    (ctxNamespace : Option String) : ProxyKubeconfig × Nat :=
  ({ currentContext := contextName
     clusters := [{ name := contextName, server := resolveProxyUrl port clusterId }]
     users := [{ name := "proxy" }]
     contexts := [{ user := "proxy", name := contextName, cluster := contextName,
                    namespaceName := ctxNamespace }] },
   0o600)

/-- C8: every synthesized proxy kubeconfig has exactly one cluster, one
user and one context; the single user is named "proxy" and carries no
credential field; the single cluster's server is
`http://127.0.0.1:<port>/<clusterId>`; the context preserves the original
context's namespace; and the file is written with owner-only `0o600`
permissions. -/
theorem proxy_kubeconfig_shape (contextName clusterId : String) (port : Nat)
    (ctxNamespace : Option String) :
    (createProxyKubeconfig contextName clusterId port ctxNamespace).1.clusters.length = 1 ∧
    (createProxyKubeconfig contextName clusterId port ctxNamespace).1.users.length = 1 ∧
    (createProxyKubeconfig contextName clusterId port ctxNamespace).1.contexts.length = 1 ∧
    (∀ u ∈ (createProxyKubeconfig contextName clusterId port ctxNamespace).1.users,
      u.name = "proxy" ∧ u.token = none ∧ u.username = none ∧ u.password = none ∧
      u.certData = none ∧ u.keyData = none ∧ u.authProvider = none) ∧
    ((createProxyKubeconfig contextName clusterId port ctxNamespace).1.clusters.map
        (fun cl => cl.server)) =
      ["http://127.0.0.1:" ++ toString port ++ "/" ++ clusterId] ∧
    ((createProxyKubeconfig contextName clusterId port ctxNamespace).1.clusters.map
        (fun cl => cl.skipTLSVerify)) = [none] ∧
    ((createProxyKubeconfig contextName clusterId port ctxNamespace).1.contexts.map
        (fun ctx => ctx.namespaceName)) = [ctxNamespace] ∧
    (createProxyKubeconfig contextName clusterId port ctxNamespace).2 = 0o600 := by
  simp [createProxyKubeconfig, resolveProxyUrl]

end Lens
